import Mathlib

/-!
Shallow embedding of `src/hemi/hemi.h` ("HEMI" CUDA portable C/C++ macros).

The header is pure conditional-compilation plumbing, so the embedding makes
the compile-time mode flags explicit data:

* `CompileMode` records which preprocessor symbols are defined for the
  current compilation pass (`__CUDACC__`, `__CUDA_ARCH__`, `DEBUG`/`_DEBUG`).
* `DeviceCtx` records the CUDA built-in index variables (`.x` components)
  that device code reads.
* The two inline helper functions `hemiGetElementOffset` and
  `hemiGetElementStride` are translated directly from their bodies.
* The documented grid-strided loop `for (idx = offset; idx < N; idx += stride)`
  is modelled by `visited`, the list of indices the loop body sees, in order.
* `checkCuda` / `checkCudaErrors` are modelled as functions from the build
  flag and the external runtime's responses to an observable outcome
  (returned status or abort, stderr lines, which runtime calls were made).
* The kernel and constant macros are modelled as functions from the
  compile mode to the expansion they produce.
-/

/-- Compile-time mode flags consumed by the header's preprocessor branches:
`cudacc` is `__CUDACC__` (NVCC is processing the translation unit),
`devCode` is `__CUDA_ARCH__` (this pass generates device code; only NVCC
defines it), `debug` is `DEBUG`/`_DEBUG`. -/
structure CompileMode where
  cudacc : Bool
  devCode : Bool
  debug : Bool
deriving DecidableEq, Repr

/-- The `.x` components of the CUDA built-in variables visible to device
code: `blockIdx.x`, `blockDim.x`, `threadIdx.x`, `gridDim.x`. -/
structure DeviceCtx where
  blockIdx : Nat
  blockDim : Nat
  threadIdx : Nat
  gridDim : Nat
deriving DecidableEq, Repr

/-- `hemiGetElementOffset` from hemi.h: under `HEMI_DEV_CODE`
(`__CUDA_ARCH__`) it returns `blockIdx.x * blockDim.x + threadIdx.x`,
otherwise `0`. -/
def hemiGetElementOffset (m : CompileMode) (c : DeviceCtx) : Nat :=
  if m.devCode then c.blockIdx * c.blockDim + c.threadIdx else 0

/-- `hemiGetElementStride` from hemi.h: under `HEMI_DEV_CODE` it returns
`blockDim.x * gridDim.x`, otherwise `1`. -/
def hemiGetElementStride (m : CompileMode) (c : DeviceCtx) : Nat :=
  if m.devCode then c.blockDim * c.gridDim else 1

/-- The index sequence of the grid-strided loop documented in hemi.h,
`for (int idx = offset; idx < N; idx += stride) ...`: the list of values
of `idx` for which the body runs, in execution order.  The `0 < stride`
guard only makes the function total; every use in the header has a
positive stride (`1` on the host, the launched thread count on the
device). -/
def visited (offset stride N : Nat) : List Nat :=
  if _h : offset < N ∧ 0 < stride then
    offset :: visited (offset + stride) stride N
  else
    []
termination_by N - offset
decreasing_by
  omega

/-- An index is visited by the loop exactly when it is of the form
`offset + k * stride` and below the bound. -/
theorem mem_visited (offset stride N i : Nat) :
    i ∈ visited offset stride N ↔
      0 < stride ∧ i < N ∧ ∃ k, i = offset + k * stride := by
  induction offset, stride, N using visited.induct with
  | case1 offset stride N h ih =>
    rw [visited, dif_pos h, List.mem_cons, ih]
    constructor
    · rintro (rfl | ⟨hs, hi, k, rfl⟩)
      · exact ⟨h.2, h.1, 0, by omega⟩
      · exact ⟨hs, hi, k + 1, by ring⟩
    · rintro ⟨hs, hi, k, rfl⟩
      match k with
      | 0 => exact Or.inl (by omega)
      | k + 1 => exact Or.inr ⟨hs, hi, k, by ring⟩
  | case2 offset stride N h =>
    rw [visited, dif_neg h]
    simp only [List.not_mem_nil, false_iff]
    rintro ⟨hs, hi, k, rfl⟩
    exact h ⟨by omega, hs⟩

/-- For a thread with offset `t < T` and stride `T`, the loop visits
exactly the indices below `N` congruent to `t` modulo `T`. -/
theorem mem_visited_mod (T N t i : Nat) (hT : 0 < T) (ht : t < T) :
    i ∈ visited t T N ↔ i < N ∧ i % T = t := by
  rw [mem_visited]
  constructor
  · rintro ⟨-, hi, k, rfl⟩
    exact ⟨hi, by rw [Nat.add_mul_mod_self_right, Nat.mod_eq_of_lt ht]⟩
  · rintro ⟨hi, hmod⟩
    refine ⟨hT, hi, i / T, ?_⟩
    conv_lhs => rw [← Nat.div_add_mod i T, hmod]
    ring

/-- The loop visits its indices in strictly increasing order. -/
theorem visited_sorted (offset stride N : Nat) :
    List.Sorted (· < ·) (visited offset stride N) := by
  induction offset, stride, N using visited.induct with
  | case1 offset stride N h ih =>
    rw [visited, dif_pos h]
    refine List.sorted_cons.2 ⟨fun b hb => ?_, ih⟩
    rcases (mem_visited _ _ _ _).1 hb with ⟨hs, -, k, rfl⟩
    omega
  | case2 offset stride N h =>
    rw [visited, dif_neg h]
    exact List.sorted_nil

/-- With stride `1` the loop from `offset` is the contiguous range
`[offset, N)`. -/
theorem visited_stride_one (offset N : Nat) :
    visited offset 1 N = List.range' offset (N - offset) := by
  generalize hd : N - offset = d
  induction d generalizing offset with
  | zero =>
    rw [visited, dif_neg (by omega), List.range'_zero.symm]
  | succ d ih =>
    rw [visited, dif_pos ⟨by omega, Nat.one_pos⟩, List.range'_succ]
    rw [ih (offset + 1) (by omega)]

/-- The host-mode loop (`offset = 0`, `stride = 1`) is the ascending
sequence `0, 1, ..., N-1`. -/
theorem visited_host (N : Nat) : visited 0 1 N = List.range N := by
  rw [visited_stride_one, Nat.sub_zero, List.range_eq_range']

/-- The responses of the external CUDA runtime, which hemi.h only wraps:
`syncResult` is what `cudaDeviceSynchronize()` returns, `lastError` is
what `cudaGetLastError()` returns afterwards, and `errString` is
`cudaGetErrorString`.  Status codes are `cudaError_t` values with
`cudaSuccess = 0`. -/
structure CudaRuntime where
  syncResult : Nat
  lastError : Nat
  errString : Nat → String

/-- Observable outcome of one of the error-check helpers: `ret` is the
returned status code, `none` meaning the process was terminated by the
failed `assert`; `printed` is the list of stderr lines produced, in
order; `synced` records whether `cudaDeviceSynchronize()` was called and
`queriedLastError` whether `cudaGetLastError()` was called. -/
structure CheckOutcome where
  ret : Option Nat
  printed : List String
  synced : Bool
  queriedLastError : Bool
deriving DecidableEq, Repr

/-- `checkCuda(result)` from hemi.h.  When `DEBUG`/`_DEBUG` is defined
and the status is not `cudaSuccess`, it prints
`"CUDA Runtime Error: <errString>"` and then fails
`assert(result == cudaSuccess)`, aborting the process; otherwise it
returns the status unchanged with no output. -/
def checkCuda (debug : Bool) (rt : CudaRuntime) (result : Nat) : CheckOutcome :=
  if debug then
    if result ≠ 0 then
      ⟨none, ["CUDA Runtime Error: " ++ rt.errString result], false, false⟩
    else
      ⟨some result, [], false, false⟩
  else
    ⟨some result, [], false, false⟩

/-- `checkCudaErrors()` from hemi.h.  When `DEBUG`/`_DEBUG` is defined it
calls `cudaDeviceSynchronize()`, prints `"CUDA Launch Error: ..."` if that
failed, then runs `checkCuda(result = cudaGetLastError())` and returns
that `result`; otherwise it does nothing and returns `cudaSuccess`. -/
def checkCudaErrors (debug : Bool) (rt : CudaRuntime) : CheckOutcome :=
  if debug then
    let launchMsgs : List String :=
      if rt.syncResult ≠ 0 then
        ["CUDA Launch Error: " ++ rt.errString rt.syncResult]
      else
        []
    let inner := checkCuda true rt rt.lastError
    ⟨inner.ret, launchMsgs ++ inner.printed, true, true⟩
  else
    ⟨some 0, [], false, false⟩

/-- Two successive calls `checkCuda(r); checkCuda(r')` where `r'` is the
status the first call returned; if the first call aborted the process the
second never runs.  Outputs accumulate. -/
def runTwiceCheckCuda (debug : Bool) (rt : CudaRuntime) (r : Nat) : CheckOutcome :=
  let o1 := checkCuda debug rt r
  match o1.ret with
  | none => o1
  | some r1 =>
    let o2 := checkCuda debug rt r1
    ⟨o2.ret, o1.printed ++ o2.printed, o1.synced || o2.synced,
      o1.queriedLastError || o2.queriedLastError⟩

/-- Two successive calls `checkCudaErrors(); checkCudaErrors()`; the
second runs only if the first did not abort.  Reusing `rt` for the second
call is sound exactly because a non-aborting first call observed no error
and so left the runtime's error state untouched. -/
def runTwiceCheckCudaErrors (debug : Bool) (rt : CudaRuntime) : CheckOutcome :=
  let o1 := checkCudaErrors debug rt
  match o1.ret with
  | none => o1
  | some _ =>
    let o2 := checkCudaErrors debug rt
    ⟨o2.ret, o1.printed ++ o2.printed, o1.synced || o2.synced,
      o1.queriedLastError || o2.queriedLastError⟩

/-- The pair of storage locations a `HEMI_DEFINE_CONSTANT` expansion may
emit: the `name_devconst` symbol (in `__constant__` device memory) and
the `name_hostconst` symbol (an ordinary static host value).  `none`
means the symbol is not emitted in the current compilation mode. -/
structure ConstEnv (α : Type) where
  devconst : Option α
  hostconst : Option α
deriving DecidableEq, Repr

/-- `HEMI_DEFINE_CONSTANT(def, value)`: under NVCC it emits both
`def_devconst = value` (in constant memory) and a static
`def_hostconst = value`; under a host-only compiler it emits only the
static `def_hostconst = value`. -/
def HEMI_DEFINE_CONSTANT {α : Type} (m : CompileMode) (value : α) : ConstEnv α :=
  if m.cudacc then ⟨some value, some value⟩ else ⟨none, some value⟩

/-- `HEMI_CONSTANT(name)`: under NVCC it names `name_devconst` when
`HEMI_DEV_CODE` is defined and `name_hostconst` otherwise; under a
host-only compiler it names `name_hostconst`. -/
def HEMI_CONSTANT {α : Type} (m : CompileMode) (env : ConstEnv α) : Option α :=
  if m.cudacc then
    if m.devCode then env.devconst else env.hostconst
  else
    env.hostconst

/-- `HEMI_DEV_CONSTANT(name)`: defined only in the NVCC branch of the
header, outside the `HEMI_DEV_CODE` test, so under NVCC it names
`name_devconst` in both compilation passes; under a host-only compiler
the macro does not exist (`none`). -/
def HEMI_DEV_CONSTANT {α : Type} (m : CompileMode) (env : ConstEnv α) : Option α :=
  if m.cudacc then env.devconst else none

/-- The function declaration a `HEMI_KERNEL(name)` expansion introduces:
its symbol and whether it carries the `__global__` qualifier. -/
structure KernelDecl where
  symbol : String
  isGlobal : Bool
deriving DecidableEq, Repr

/-- `HEMI_KERNEL(name)`: under NVCC it declares `__global__ void
name_kernel`; under a host-only compiler it declares `void name`. -/
def HEMI_KERNEL (m : CompileMode) (name : String) : KernelDecl :=
  if m.cudacc then ⟨name ++ "_kernel", true⟩ else ⟨name, false⟩

/-- `HEMI_KERNEL_NAME(name)`: `name_kernel` under NVCC, plain `name`
under a host-only compiler. -/
def HEMI_KERNEL_NAME (m : CompileMode) (name : String) : String :=
  if m.cudacc then name ++ "_kernel" else name

/-- The statement a `HEMI_KERNEL_LAUNCH` expansion produces: either a
CUDA triple-chevron grid launch (with, in debug builds, a trailing
`checkCudaErrors()` recorded by `thenCheck`), or a plain sequential
function call. -/
inductive LaunchCode (A : Type) where
  | gridLaunch (entry : String) (gridDim blockDim sharedBytes streamId : Nat)
      (args : A) (thenCheck : Bool)
  | plainCall (f : String) (args : A)
deriving DecidableEq, Repr

/-- `HEMI_KERNEL_LAUNCH(name, gridDim, blockDim, sharedBytes, streamId,
...)`: under NVCC it expands to
`name_kernel<<<gridDim, blockDim, sharedBytes, streamId>>>(...)`,
followed by `checkCudaErrors()` exactly when `DEBUG`/`_DEBUG` is defined;
under a host-only compiler it expands to `name(...)`. -/
def HEMI_KERNEL_LAUNCH {A : Type} (m : CompileMode) (name : String)
    (gridDim blockDim sharedBytes streamId : Nat) (args : A) : LaunchCode A :=
  if m.cudacc then
    .gridLaunch (name ++ "_kernel") gridDim blockDim sharedBytes streamId args m.debug
  else
    .plainCall name args

/-- The entry-point symbol a launch expansion invokes. -/
def launchEntry {A : Type} : LaunchCode A → String
  | .gridLaunch e _ _ _ _ _ _ => e
  | .plainCall f _ => f

/-- Sequential-host semantics of a launch expansion: given the meaning
`defs` of each function symbol, a plain call runs that function on its
arguments; a grid launch is not executable by a host-only build. -/
def runHostLaunch {A R : Type} (defs : String → A → R) : LaunchCode A → Option R
  | .plainCall f args => some (defs f args)
  | .gridLaunch _ _ _ _ _ _ _ => none

/-- C1: for every `N ≥ 0` and thread count `T ≥ 1`, the grid-strided
loops with `offset = t`, `stride = T` for `t ∈ [0, T)` visit pairwise
disjoint index sets whose union is exactly `[0, N)`, each thread's list
having no duplicates; a thread whose offset is already `≥ N` performs
zero iterations; and the host instantiation
(`hemiGetElementOffset = 0`, `hemiGetElementStride = 1`) degenerates to
visiting `0, 1, ..., N-1` exactly once in ascending order. -/
theorem grid_stride_loops_partition (N T : Nat) (hT : 1 ≤ T) :
    (∀ t1 t2, t1 < T → t2 < T → t1 ≠ t2 →
      ∀ i, i ∈ visited t1 T N → i ∉ visited t2 T N) ∧
    (∀ i, i < N ↔ ∃ t, t < T ∧ i ∈ visited t T N) ∧
    (∀ t, t < T → (visited t T N).Nodup) ∧
    (∀ t, N ≤ t → visited t T N = []) ∧
    (∀ (m : CompileMode) (c : DeviceCtx), m.devCode = false →
      visited (hemiGetElementOffset m c) (hemiGetElementStride m c) N =
        List.range N) := by
  have hT0 : 0 < T := hT
  refine ⟨?_, ?_, ?_, ?_, ?_⟩
  · intro t1 t2 h1 h2 hne i hi1 hi2
    rw [mem_visited_mod T N t1 i hT0 h1] at hi1
    rw [mem_visited_mod T N t2 i hT0 h2] at hi2
    exact hne (hi1.2 ▸ hi2.2)
  · intro i
    constructor
    · intro hi
      refine ⟨i % T, Nat.mod_lt i hT0, ?_⟩
      rw [mem_visited_mod T N (i % T) i hT0 (Nat.mod_lt i hT0)]
      exact ⟨hi, rfl⟩
    · rintro ⟨t, ht, hit⟩
      exact ((mem_visited_mod T N t i hT0 ht).1 hit).1
  · intro t _
    exact List.Pairwise.imp (fun hab => Nat.ne_of_lt hab) (visited_sorted t T N)
  · intro t ht
    rw [visited, dif_neg (by omega)]
  · intro m c hm
    simp only [hemiGetElementOffset, hemiGetElementStride, hm, Bool.false_eq_true,
      if_false]
    exact visited_host N

/-- C1 witness: the partition property at `N = 10`, `T = 4`. -/
theorem grid_stride_loops_partition_witness :
    1 ≤ 4 ∧
    ((∀ t1 t2, t1 < 4 → t2 < 4 → t1 ≠ t2 →
        ∀ i, i ∈ visited t1 4 10 → i ∉ visited t2 4 10) ∧
      (∀ i, i < 10 ↔ ∃ t, t < 4 ∧ i ∈ visited t 4 10) ∧
      (∀ t, t < 4 → (visited t 4 10).Nodup) ∧
      (∀ t, 10 ≤ t → visited t 4 10 = []) ∧
      (∀ (m : CompileMode) (c : DeviceCtx), m.devCode = false →
        visited (hemiGetElementOffset m c) (hemiGetElementStride m c) 10 =
          List.range 10)) :=
  ⟨by decide, grid_stride_loops_partition 10 4 (by decide)⟩

/-- C2: `hemiGetElementOffset` returns
`blockIdx.x * blockDim.x + threadIdx.x` in the device-code pass and `0`
otherwise; `hemiGetElementStride` returns `blockDim.x * gridDim.x` in
the device-code pass and `1` otherwise. -/
theorem hemiGetElement_formulas (m : CompileMode) (c : DeviceCtx) :
    (m.devCode = true →
      hemiGetElementOffset m c = c.blockIdx * c.blockDim + c.threadIdx ∧
      hemiGetElementStride m c = c.blockDim * c.gridDim) ∧
    (m.devCode = false →
      hemiGetElementOffset m c = 0 ∧ hemiGetElementStride m c = 1) := by
  constructor <;> intro h <;>
    simp [hemiGetElementOffset, hemiGetElementStride, h]

/-- C2 witness: both formulas evaluated at a concrete mode and grid
context. -/
theorem hemiGetElement_formulas_witness :
    hemiGetElementOffset ⟨true, true, false⟩ ⟨2, 3, 1, 5⟩ = 2 * 3 + 1 ∧
    hemiGetElementStride ⟨true, true, false⟩ ⟨2, 3, 1, 5⟩ = 3 * 5 ∧
    hemiGetElementOffset ⟨true, false, false⟩ ⟨2, 3, 1, 5⟩ = 0 ∧
    hemiGetElementStride ⟨true, false, false⟩ ⟨2, 3, 1, 5⟩ = 1 := by
  have h1 := (hemiGetElement_formulas ⟨true, true, false⟩ ⟨2, 3, 1, 5⟩).1 rfl
  have h2 := (hemiGetElement_formulas ⟨true, false, false⟩ ⟨2, 3, 1, 5⟩).2 rfl
  exact ⟨h1.1, h1.2, h2.1, h2.2⟩

/-- C3: on a failing status (`r ≠ cudaSuccess`), `checkCuda` in a debug
build prints a diagnostic carrying the runtime's failure string and then
terminates the process via the assertion; in a non-debug build it
returns `r` unchanged with no output and no termination. -/
theorem checkCuda_failure (rt : CudaRuntime) (r : Nat) (h : r ≠ 0) :
    (checkCuda true rt r).ret = none ∧
    (checkCuda true rt r).printed = ["CUDA Runtime Error: " ++ rt.errString r] ∧
    (checkCuda false rt r).ret = some r ∧
    (checkCuda false rt r).printed = [] := by
  simp [checkCuda, h]

/-- C3 witness: `checkCuda` on failure code `11` with a concrete
runtime. -/
theorem checkCuda_failure_witness :
    (11 : Nat) ≠ 0 ∧
    ((checkCuda true ⟨0, 0, fun _ => "invalid argument"⟩ 11).ret = none ∧
      (checkCuda true ⟨0, 0, fun _ => "invalid argument"⟩ 11).printed =
        ["CUDA Runtime Error: " ++
          (⟨0, 0, fun _ => "invalid argument"⟩ : CudaRuntime).errString 11] ∧
      (checkCuda false ⟨0, 0, fun _ => "invalid argument"⟩ 11).ret = some 11 ∧
      (checkCuda false ⟨0, 0, fun _ => "invalid argument"⟩ 11).printed = []) :=
  ⟨by decide, checkCuda_failure ⟨0, 0, fun _ => "invalid argument"⟩ 11 (by decide)⟩

/-- C4: in a debug build `checkCudaErrors` synchronizes the device, then
queries the last asynchronous error; any failure there goes through the
same print-and-abort path as `checkCuda` (the returned status is exactly
`checkCuda`'s on the queried error, every line `checkCuda` would print
is printed, and a failing query prints the runtime-error line and
aborts).  In a non-debug build it performs no synchronization, no query,
no output, and returns the success status. -/
theorem checkCudaErrors_behavior (rt : CudaRuntime) :
    ((checkCudaErrors true rt).synced = true ∧
      (checkCudaErrors true rt).queriedLastError = true ∧
      (checkCudaErrors true rt).ret = (checkCuda true rt rt.lastError).ret ∧
      (∀ msg, msg ∈ (checkCuda true rt rt.lastError).printed →
        msg ∈ (checkCudaErrors true rt).printed) ∧
      (rt.lastError ≠ 0 →
        (checkCudaErrors true rt).ret = none ∧
        ("CUDA Runtime Error: " ++ rt.errString rt.lastError) ∈
          (checkCudaErrors true rt).printed)) ∧
    ((checkCudaErrors false rt).synced = false ∧
      (checkCudaErrors false rt).queriedLastError = false ∧
      (checkCudaErrors false rt).printed = [] ∧
      (checkCudaErrors false rt).ret = some 0) := by
  refine ⟨⟨rfl, rfl, rfl, ?_, ?_⟩, rfl, rfl, rfl, rfl⟩
  · intro msg hmsg
    simp only [checkCudaErrors, if_true, List.mem_append]
    exact Or.inr hmsg
  · intro h
    refine ⟨?_, ?_⟩
    · show (checkCuda true rt rt.lastError).ret = none
      simp [checkCuda, h]
    · simp only [checkCudaErrors, if_true, List.mem_append]
      refine Or.inr ?_
      simp [checkCuda, h]

/-- C4 witness: `checkCudaErrors` on a runtime holding asynchronous
error `4`, and on a clean runtime in a non-debug build. -/
theorem checkCudaErrors_behavior_witness :
    ((checkCudaErrors true ⟨4, 4, fun _ => "launch failure"⟩).synced = true ∧
      (checkCudaErrors true ⟨4, 4, fun _ => "launch failure"⟩).queriedLastError = true ∧
      (checkCudaErrors true ⟨4, 4, fun _ => "launch failure"⟩).ret =
        (checkCuda true ⟨4, 4, fun _ => "launch failure"⟩
          (⟨4, 4, fun _ => "launch failure"⟩ : CudaRuntime).lastError).ret ∧
      (∀ msg,
        msg ∈ (checkCuda true ⟨4, 4, fun _ => "launch failure"⟩
          (⟨4, 4, fun _ => "launch failure"⟩ : CudaRuntime).lastError).printed →
        msg ∈ (checkCudaErrors true ⟨4, 4, fun _ => "launch failure"⟩).printed) ∧
      ((⟨4, 4, fun _ => "launch failure"⟩ : CudaRuntime).lastError ≠ 0 →
        (checkCudaErrors true ⟨4, 4, fun _ => "launch failure"⟩).ret = none ∧
        ("CUDA Runtime Error: " ++
            (⟨4, 4, fun _ => "launch failure"⟩ : CudaRuntime).errString
              (⟨4, 4, fun _ => "launch failure"⟩ : CudaRuntime).lastError) ∈
          (checkCudaErrors true ⟨4, 4, fun _ => "launch failure"⟩).printed)) ∧
    ((checkCudaErrors false ⟨4, 4, fun _ => "launch failure"⟩).synced = false ∧
      (checkCudaErrors false ⟨4, 4, fun _ => "launch failure"⟩).queriedLastError = false ∧
      (checkCudaErrors false ⟨4, 4, fun _ => "launch failure"⟩).printed = [] ∧
      (checkCudaErrors false ⟨4, 4, fun _ => "launch failure"⟩).ret = some 0) :=
  checkCudaErrors_behavior ⟨4, 4, fun _ => "launch failure"⟩

/-- C5: on the success status, `checkCuda` returns it unchanged and has
no observable effect in either build mode. -/
theorem checkCuda_success (debug : Bool) (rt : CudaRuntime) :
    checkCuda debug rt 0 = ⟨some 0, [], false, false⟩ := by
  cases debug <;> simp [checkCuda]

/-- C9: both helpers are idempotent in every build mode: a second
`checkCuda` on the status the first returned, and a second
`checkCudaErrors`, add no observable effect and change no result.  The
hypothesis is the external runtime's documented behavior: a failing
`cudaDeviceSynchronize` leaves its error as the last error that
`cudaGetLastError` then reports. -/
theorem check_helpers_idempotent (debug : Bool) (rt : CudaRuntime) (r : Nat)
    (hrt : rt.syncResult ≠ 0 → rt.lastError = rt.syncResult) :
    runTwiceCheckCuda debug rt r = checkCuda debug rt r ∧
    runTwiceCheckCudaErrors debug rt = checkCudaErrors debug rt := by
  constructor
  · cases debug with
    | false => simp [runTwiceCheckCuda, checkCuda]
    | true =>
      by_cases h : r = 0
      · subst h
        simp [runTwiceCheckCuda, checkCuda]
      · simp [runTwiceCheckCuda, checkCuda, h]
  · cases debug with
    | false => simp [runTwiceCheckCudaErrors, checkCudaErrors]
    | true =>
      by_cases h : rt.lastError = 0
      · have hsync : rt.syncResult = 0 := by
          by_contra hs
          exact hs (by rw [← hrt hs, h])
        simp [runTwiceCheckCudaErrors, checkCudaErrors, checkCuda, h, hsync]
      · simp [runTwiceCheckCudaErrors, checkCudaErrors, checkCuda, h]

/-- C9 witness: idempotence at a clean debug-mode runtime and status
`7`. -/
theorem check_helpers_idempotent_witness :
    ((⟨0, 0, fun _ => "no error"⟩ : CudaRuntime).syncResult ≠ 0 →
      (⟨0, 0, fun _ => "no error"⟩ : CudaRuntime).lastError =
        (⟨0, 0, fun _ => "no error"⟩ : CudaRuntime).syncResult) ∧
    (runTwiceCheckCuda true ⟨0, 0, fun _ => "no error"⟩ 7 =
        checkCuda true ⟨0, 0, fun _ => "no error"⟩ 7 ∧
      runTwiceCheckCudaErrors true ⟨0, 0, fun _ => "no error"⟩ =
        checkCudaErrors true ⟨0, 0, fun _ => "no error"⟩) :=
  ⟨by decide, check_helpers_idempotent true ⟨0, 0, fun _ => "no error"⟩ 7 (by decide)⟩

/-- C6: defining a constant with `HEMI_DEFINE_CONSTANT` and reading it
back through `HEMI_CONSTANT` yields the defined value in the host
compilation context (through `_hostconst`) and in the device compilation
context (through `_devconst`); under NVCC both copies are initialized to
the same value.  The hypothesis records that only NVCC defines
`__CUDA_ARCH__`. -/
theorem constant_roundtrip {α : Type} (m : CompileMode) (v : α)
    (h : m.devCode = true → m.cudacc = true) :
    HEMI_CONSTANT m (HEMI_DEFINE_CONSTANT m v) = some v ∧
    (m.cudacc = true →
      (HEMI_DEFINE_CONSTANT m v).devconst = some v ∧
      (HEMI_DEFINE_CONSTANT m v).hostconst = some v) := by
  obtain ⟨cc, dc, dbg⟩ := m
  cases cc with
  | true => cases dc <;> simp [HEMI_CONSTANT, HEMI_DEFINE_CONSTANT]
  | false =>
    cases dc with
    | true => exact (Bool.false_ne_true (h rfl)).elim
    | false => simp [HEMI_CONSTANT, HEMI_DEFINE_CONSTANT]

/-- C6 witness: the round-trip at value `3` in the device pass. -/
theorem constant_roundtrip_witness :
    ((⟨true, true, false⟩ : CompileMode).devCode = true →
      (⟨true, true, false⟩ : CompileMode).cudacc = true) ∧
    (HEMI_CONSTANT ⟨true, true, false⟩
        (HEMI_DEFINE_CONSTANT ⟨true, true, false⟩ (3 : Nat)) = some 3 ∧
      ((⟨true, true, false⟩ : CompileMode).cudacc = true →
        (HEMI_DEFINE_CONSTANT ⟨true, true, false⟩ (3 : Nat)).devconst = some 3 ∧
        (HEMI_DEFINE_CONSTANT ⟨true, true, false⟩ (3 : Nat)).hostconst = some 3)) :=
  ⟨by decide, constant_roundtrip ⟨true, true, false⟩ 3 (by decide)⟩

/-- C7: under the accelerator compiler, `HEMI_DEV_CONSTANT` resolves to
the `_devconst` device copy in every compilation pass — the expansion is
the same whether or not the current pass generates device code. -/
theorem dev_constant_always_device_copy {α : Type} (m : CompileMode)
    (env : ConstEnv α) (h : m.cudacc = true) :
    HEMI_DEV_CONSTANT m env = env.devconst := by
  simp [HEMI_DEV_CONSTANT, h]

/-- C7 witness: the device-copy resolution in the host-code pass of the
accelerator compiler. -/
theorem dev_constant_always_device_copy_witness :
    (⟨true, false, true⟩ : CompileMode).cudacc = true ∧
    HEMI_DEV_CONSTANT ⟨true, false, true⟩ (⟨some 5, some 6⟩ : ConstEnv Nat) =
      (⟨some 5, some 6⟩ : ConstEnv Nat).devconst :=
  ⟨by decide,
    dev_constant_always_device_copy ⟨true, false, true⟩ ⟨some 5, some 6⟩ (by decide)⟩

/-- C8: under a host-only compiler, `HEMI_KERNEL_LAUNCH` discards the
grid, block, shared-memory and stream parameters and is the plain
sequential call `name(args...)`: the expansion is `plainCall name args`
whatever those four parameters are, and running it equals running the
undecorated function on the same arguments. -/
theorem host_launch_is_plain_call {A R : Type} (m : CompileMode) (name : String)
    (g b s st : Nat) (args : A) (defs : String → A → R) (h : m.cudacc = false) :
    HEMI_KERNEL_LAUNCH m name g b s st args = LaunchCode.plainCall name args ∧
    (∀ g' b' s' st', HEMI_KERNEL_LAUNCH m name g' b' s' st' args =
      HEMI_KERNEL_LAUNCH m name g b s st args) ∧
    runHostLaunch defs (HEMI_KERNEL_LAUNCH m name g b s st args) =
      some (defs name args) := by
  refine ⟨?_, ?_, ?_⟩ <;> simp [HEMI_KERNEL_LAUNCH, runHostLaunch, h]

/-- C8 witness: a host-only launch of kernel `saxpy` with arbitrary
launch parameters. -/
theorem host_launch_is_plain_call_witness :
    (⟨false, false, false⟩ : CompileMode).cudacc = false ∧
    (HEMI_KERNEL_LAUNCH ⟨false, false, false⟩ "saxpy" 1 2 3 4 (9 : Nat) =
        LaunchCode.plainCall "saxpy" 9 ∧
      (∀ g' b' s' st', HEMI_KERNEL_LAUNCH ⟨false, false, false⟩ "saxpy" g' b' s' st'
          (9 : Nat) =
        HEMI_KERNEL_LAUNCH ⟨false, false, false⟩ "saxpy" 1 2 3 4 (9 : Nat)) ∧
      runHostLaunch (fun n a => n.length + a)
          (HEMI_KERNEL_LAUNCH ⟨false, false, false⟩ "saxpy" 1 2 3 4 (9 : Nat)) =
        some ((fun (n : String) (a : Nat) => n.length + a) "saxpy" 9)) :=
  ⟨by decide,
    host_launch_is_plain_call ⟨false, false, false⟩ "saxpy" 1 2 3 4 9
      (fun n a => n.length + a) (by decide)⟩

/-- C10: in each compilation mode, `HEMI_KERNEL`, `HEMI_KERNEL_NAME` and
`HEMI_KERNEL_LAUNCH` agree on the entry-point symbol: `name_kernel` in
all three under the accelerator compiler (whatever the debug flag), the
plain `name` in all three under a host-only compiler. -/
theorem kernel_symbols_agree {A : Type} (m : CompileMode) (name : String)
    (g b s st : Nat) (args : A) :
    (HEMI_KERNEL m name).symbol = HEMI_KERNEL_NAME m name ∧
    launchEntry (HEMI_KERNEL_LAUNCH m name g b s st args) = HEMI_KERNEL_NAME m name ∧
    (m.cudacc = true → HEMI_KERNEL_NAME m name = name ++ "_kernel") ∧
    (m.cudacc = false → HEMI_KERNEL_NAME m name = name) := by
  obtain ⟨cc, dc, dbg⟩ := m
  cases cc <;>
    simp [HEMI_KERNEL, HEMI_KERNEL_NAME, HEMI_KERNEL_LAUNCH, launchEntry]

/-- C10 witness: symbol agreement for kernel `saxpy` under the
accelerator compiler in a debug build. -/
theorem kernel_symbols_agree_witness :
    (HEMI_KERNEL ⟨true, false, true⟩ "saxpy").symbol =
      HEMI_KERNEL_NAME ⟨true, false, true⟩ "saxpy" ∧
    launchEntry (HEMI_KERNEL_LAUNCH ⟨true, false, true⟩ "saxpy" 1 2 3 4 (9 : Nat)) =
      HEMI_KERNEL_NAME ⟨true, false, true⟩ "saxpy" ∧
    ((⟨true, false, true⟩ : CompileMode).cudacc = true →
      HEMI_KERNEL_NAME ⟨true, false, true⟩ "saxpy" = "saxpy" ++ "_kernel") ∧
    ((⟨true, false, true⟩ : CompileMode).cudacc = false →
      HEMI_KERNEL_NAME ⟨true, false, true⟩ "saxpy" = "saxpy") :=
  kernel_symbols_agree ⟨true, false, true⟩ "saxpy" 1 2 3 4 9
